import Mathlib

/-!
Shallow embedding of the username-claim discount endpoint
(`apps/web` API route: method check, address validation, configuration
checks, attestation fetch, payload decode, identity-link resolution,
claim-cache lookup with conflict detection, signing, cache commit).

External collaborators (attestation provider, identity-linking provider,
key/value store, ECDSA signing) are modelled as explicit oracles in an
`Env` record; the key/value store is threaded as explicit state and every
collaborator call is recorded in an effect trace so that frame properties
(no side effects on early returns) are provable.
-/

namespace UsernameClaim

/-- `PreviousClaim` from the source: the record cached per idempotency key. -/
structure PreviousClaim where
  address : String
  signedMessage : String
deriving DecidableEq, Repr

/-- Inner `value` field of a `VerifiedAccount` decoded attestation. -/
structure VerifiedAccountValue where
  name : String
  type : String
  value : Bool
deriving DecidableEq, Repr

/-- `VerifiedAccount` from the source: one decoded attestation payload. -/
structure VerifiedAccount where
  name : String
  type : String
  signature : String
  value : VerifiedAccountValue
deriving DecidableEq, Repr

/-- A raw attestation record as returned by the attestation provider;
the handler only uses its `decodedDataJson` string. -/
structure Attestation where
  decodedDataJson : String
deriving DecidableEq, Repr

/-- Result of `getLinkedAddresses`: the linked-address group and its
idempotency key. -/
structure LinkedResult where
  linkedAddresses : List String
  idemKey : String
deriving DecidableEq, Repr

/-- One stored key/value entry: the cached claim plus the TTL (in seconds)
it was written with (`kv.set(key, claim, { ex: expiry })`). -/
structure StoreEntry where
  claim : PreviousClaim
  ttl : Nat
deriving DecidableEq, Repr

/-- The external key/value store, as an association list keyed by string;
the most recent binding for a key shadows older ones. -/
abbrev Store := List (String × StoreEntry)

/-- `kv.get`: first binding for the key, if any. -/
def storeGet : Store → String → Option StoreEntry
  | [], _ => none
  | (k, e) :: rest, key => if k = key then some e else storeGet rest key

/-- `kv.set(key, claim, { ex: ttl })`: bind the key to a fresh entry. -/
def storeSet (s : Store) (key : String) (c : PreviousClaim) (ttl : Nat) : Store :=
  (key, ⟨c, ttl⟩) :: s

/-- Configuration surface read by the handler. An absent signer key is
modelled as the empty string (the source guard `!trustedSignerPKey` is
true exactly for an absent or empty value). -/
structure Config where
  trustedSignerPKey : String
  trustedSignerAddress : String
  verifiedAccountSchemaId : String
  verifiedCb1AccountSchemaId : String
  expiry : Nat
deriving DecidableEq, Repr

/-- Hexadecimal digit test used by the address / schema-id validators. -/
def isHexDigitChar (c : Char) : Bool :=
  (Char.ofNat 48 ≤ c && c ≤ Char.ofNat 57) ||
  (Char.ofNat 97 ≤ c && c ≤ Char.ofNat 102) ||
  (Char.ofNat 65 ≤ c && c ≤ Char.ofNat 70)

/-- Modelled from the spec: viem `isAddress` (external library, not in the
repository) — a checksummable hex-encoded 20-byte value, i.e. `0x`
followed by exactly 40 hex digits. -/
def isAddressStr (s : String) : Bool :=
  match s.data with
  | '0' :: 'x' :: rest => rest.length == 40 && rest.all isHexDigitChar
  | _ => false

/-- Modelled from the spec: viem `isHex` (external library, not in the
repository) — `0x` followed by hex digits. -/
def isHexStr (s : String) : Bool :=
  match s.data with
  | '0' :: 'x' :: rest => rest.all isHexDigitChar
  | _ => false

/-- Behaviour of the external collaborators for one request.
`Except.error ()` models the call (or `JSON.parse`) throwing. -/
structure Env where
  /-- `getAttestations(address, chain, { schemas })`. -/
  attestations : Except Unit (List Attestation)
  /-- `JSON.parse(a.decodedDataJson)[0] as VerifiedAccount` for one raw
  attestation; `error` models a malformed-JSON throw. -/
  parseFact : String → Except Unit VerifiedAccount
  /-- `getLinkedAddresses(address)`. -/
  linked : Except Unit LinkedResult
  /-- whether `kv.get` succeeds (it throws otherwise). -/
  kvGetOk : Bool
  /-- `signMessage(claimerAddress)`: the ABI-encoded signed message, or a
  throw (e.g. malformed key material in `privateKeyToAccount`). -/
  sign : String → Except Unit String
  /-- whether `kv.set` succeeds (it throws otherwise). -/
  kvSetOk : Bool

/-- `req.query.address` can be absent, a single string, or an array. -/
inductive QueryVal where
  | missing : QueryVal
  | one : String → QueryVal
  | many : List String → QueryVal
deriving DecidableEq, Repr

/-- The inbound HTTP request, restricted to the parts the handler reads. -/
structure Request where
  method : String
  address : QueryVal
deriving DecidableEq, Repr

/-- JSON response body: field presence is tracked with `Option`. -/
structure Body where
  error : Option String := none
  attestations : Option (List VerifiedAccount) := none
  signedMessage : Option String := none
  linkedAddresses : Option (List String) := none
deriving DecidableEq, Repr

/-- Outcome of one handler invocation: an HTTP response, or an exception
that escapes the handler uncaught. -/
inductive HResult where
  | response : Nat → Body → HResult
  | uncaught : HResult
deriving DecidableEq, Repr

/-- One observable call to an external collaborator. -/
inductive Effect where
  | attQuery : String → List String → Effect
  | linkResolve : String → Effect
  | kvGet : String → Effect
  | kvSet : String → PreviousClaim → Nat → Effect
  | signCall : String → Effect
deriving DecidableEq, Repr

/-- The generic 500 body produced by the `catch` block. -/
def genericError : Body := { error := some "error generating discount message" }

/-- `attestations.map((a) => JSON.parse(a.decodedDataJson)[0] as VerifiedAccount)`:
left-to-right, throwing (hence `error`) at the first malformed payload. -/
def decodeAll (p : String → Except Unit VerifiedAccount) :
    List Attestation → Except Unit (List VerifiedAccount)
  | [] => Except.ok []
  | a :: rest =>
    match p a.decodedDataJson with
    | Except.error e => Except.error e
    | Except.ok v =>
      match decodeAll p rest with
      | Except.error e => Except.error e
      | Except.ok vs => Except.ok (v :: vs)

/-- The two schema identifiers passed to the attestation query. -/
def schemasOf (cfg : Config) : List String :=
  [cfg.verifiedAccountSchemaId, cfg.verifiedCb1AccountSchemaId]

/-- The key/value key for an idempotency key:
`` `${previousClaimsKVPrefix}${idemKey}` `` with base `"username:claims:"`. -/
def kvKeyOf (idemKey : String) : String := "username:claims:" ++ idemKey

/-- The endpoint handler. Returns the HTTP outcome, the key/value store
after the request, and the trace of external-collaborator calls made.
Mirrors the source line by line: method check (405), address validation
(400), signer-key and schema-id configuration checks (500), attestation
fetch and payload decode (both outside the `try`, so a throw there is
uncaught), then inside the `try`: identity resolution, cache lookup with
conflict (409) / replay (200), signing and cache commit. -/
def handler (cfg : Config) (env : Env) (req : Request) (store : Store) :
    HResult × Store × List Effect :=
  if req.method ≠ "GET" then
    (HResult.response 405 { error := some "method not allowed" }, store, [])
  else
    match req.address with
    | QueryVal.missing =>
        (HResult.response 400 { error := some "valid address is required" }, store, [])
    | QueryVal.many _ =>
        (HResult.response 400 { error := some "valid address is required" }, store, [])
    | QueryVal.one a =>
      if a = "" ∨ isAddressStr a = false then
        (HResult.response 400 { error := some "valid address is required" }, store, [])
      else if cfg.trustedSignerPKey = "" then
        (HResult.response 500 { error := some "currently unable to sign" }, store, [])
      else if isHexStr cfg.verifiedAccountSchemaId = false then
        (HResult.response 500 { error := some "invalid verifiedCb1AccountSchemaId" }, store, [])
      else if isHexStr cfg.verifiedCb1AccountSchemaId = false then
        (HResult.response 500 { error := some "invalid verifiedCb1AccountSchemaId" }, store, [])
      else
        match env.attestations with
        | Except.error _ => (HResult.uncaught, store, [Effect.attQuery a (schemasOf cfg)])
        | Except.ok atts =>
          if atts.length = 0 then
            (HResult.response 200 { attestations := some [] }, store,
              [Effect.attQuery a (schemasOf cfg)])
          else
            match decodeAll env.parseFact atts with
            | Except.error _ => (HResult.uncaught, store, [Effect.attQuery a (schemasOf cfg)])
            | Except.ok attestationsRes =>
              match env.linked with
              | Except.error _ =>
                  (HResult.response 500 genericError, store,
                    [Effect.attQuery a (schemasOf cfg), Effect.linkResolve a])
              | Except.ok lr =>
                if env.kvGetOk = false then
                  (HResult.response 500 genericError, store,
                    [Effect.attQuery a (schemasOf cfg), Effect.linkResolve a,
                      Effect.kvGet (kvKeyOf lr.idemKey)])
                else
                  match storeGet store (kvKeyOf lr.idemKey) with
                  | some entry =>
                    if entry.claim.address ≠ a then
                      (HResult.response 409 { error := some " " }, store,
                        [Effect.attQuery a (schemasOf cfg), Effect.linkResolve a,
                          Effect.kvGet (kvKeyOf lr.idemKey)])
                    else
                      (HResult.response 200
                          { linkedAddresses := some lr.linkedAddresses,
                            signedMessage := some entry.claim.signedMessage,
                            attestations := some attestationsRes }, store,
                        [Effect.attQuery a (schemasOf cfg), Effect.linkResolve a,
                          Effect.kvGet (kvKeyOf lr.idemKey)])
                  | none =>
                    match env.sign a with
                    | Except.error _ =>
                        (HResult.response 500 genericError, store,
                          [Effect.attQuery a (schemasOf cfg), Effect.linkResolve a,
                            Effect.kvGet (kvKeyOf lr.idemKey), Effect.signCall a])
                    | Except.ok sm =>
                      if env.kvSetOk = false then
                        (HResult.response 500 genericError, store,
                          [Effect.attQuery a (schemasOf cfg), Effect.linkResolve a,
                            Effect.kvGet (kvKeyOf lr.idemKey), Effect.signCall a,
                            Effect.kvSet (kvKeyOf lr.idemKey) ⟨a, sm⟩ cfg.expiry])
                      else
                        (HResult.response 200
                            { linkedAddresses := some lr.linkedAddresses,
                              signedMessage := some sm,
                              attestations := some attestationsRes },
                          storeSet store (kvKeyOf lr.idemKey) ⟨a, sm⟩ cfg.expiry,
                          [Effect.attQuery a (schemasOf cfg), Effect.linkResolve a,
                            Effect.kvGet (kvKeyOf lr.idemKey), Effect.signCall a,
                            Effect.kvSet (kvKeyOf lr.idemKey) ⟨a, sm⟩ cfg.expiry])

/-- A request that passes method, address and configuration validation:
the hypotheses under which the handler reaches the attestation query. -/
abbrev ValidRun (cfg : Config) (req : Request) (a : String) : Prop :=
  req.method = "GET" ∧ req.address = QueryVal.one a ∧ a ≠ "" ∧
  isAddressStr a = true ∧ cfg.trustedSignerPKey ≠ "" ∧
  isHexStr cfg.verifiedAccountSchemaId = true ∧
  isHexStr cfg.verifiedCb1AccountSchemaId = true

/-! ### Concrete fixtures used by the witnesses -/

/-- A syntactically valid claimer address. -/
def addrA : String := "0x1111111111111111111111111111111111111111"

/-- A second, distinct valid address in the same linked group. -/
def addrB : String := "0x2222222222222222222222222222222222222222"

/-- A well-formed configuration. -/
def cfg0 : Config :=
  { trustedSignerPKey := "0xdeadbeef"
    trustedSignerAddress := "0x9999999999999999999999999999999999999999"
    verifiedAccountSchemaId := "0x01"
    verifiedCb1AccountSchemaId := "0x02"
    expiry := 300 }

/-- One raw attestation record. -/
def att1 : Attestation := ⟨"[{...}]"⟩

/-- Its decoded payload. -/
def fact1 : VerifiedAccount :=
  ⟨"verifiedAccount", "bool", "0xsig", ⟨"verifiedAccount", "bool", true⟩⟩

/-- A fully successful collaborator environment. -/
def envOk : Env :=
  { attestations := Except.ok [att1]
    parseFact := fun _ => Except.ok fact1
    linked := Except.ok ⟨[addrA], "group1"⟩
    kvGetOk := true
    sign := fun _ => Except.ok "0xsignedmessage"
    kvSetOk := true }

/-- A GET request for `addrA`. -/
def reqA : Request := ⟨"GET", QueryVal.one addrA⟩

/-- A store in which `addrB` already holds the claim for the group. -/
def storeB : Store :=
  [(kvKeyOf "group1", ⟨⟨addrB, "0xoldsignature"⟩, 300⟩)]

/-- A store in which `addrA` already holds the claim for the group. -/
def storeA : Store :=
  [(kvKeyOf "group1", ⟨⟨addrA, "0xoldsignature"⟩, 300⟩)]

/-! ### C8: method rejection -/

/-- C8: every request whose method is not GET is answered 405, the store
is untouched, and no external call at all is made (empty effect trace). -/
theorem handler_method_rejection (cfg : Config) (env : Env) (req : Request)
    (store : Store) (h : req.method ≠ "GET") :
    handler cfg env req store =
      (HResult.response 405 { error := some "method not allowed" }, store, []) := by
  simp [handler, h]

theorem handler_method_rejection_witness :
    ("POST" : String) ≠ "GET" ∧
      handler cfg0 envOk ⟨"POST", QueryVal.one addrA⟩ storeA =
        (HResult.response 405 { error := some "method not allowed" }, storeA, []) :=
  ⟨by decide, handler_method_rejection cfg0 envOk ⟨"POST", QueryVal.one addrA⟩ storeA
    (by decide)⟩

/-! ### C7: configuration errors precede external calls -/

/-- C7: on a well-formed GET request, an absent signer key yields 500 with
no external call (empty trace, store untouched); likewise a non-hex value
of either schema identifier yields 500 before any external call. -/
theorem handler_config_errors_before_external_calls
    (cfg : Config) (env : Env) (req : Request) (store : Store) (a : String)
    (hm : req.method = "GET") (ha : req.address = QueryVal.one a)
    (hne : a ≠ "") (haddr : isAddressStr a = true) :
    (cfg.trustedSignerPKey = "" →
      handler cfg env req store =
        (HResult.response 500 { error := some "currently unable to sign" }, store, [])) ∧
    (cfg.trustedSignerPKey ≠ "" → isHexStr cfg.verifiedAccountSchemaId = false →
      handler cfg env req store =
        (HResult.response 500 { error := some "invalid verifiedCb1AccountSchemaId" },
          store, [])) ∧
    (cfg.trustedSignerPKey ≠ "" → isHexStr cfg.verifiedAccountSchemaId = true →
      isHexStr cfg.verifiedCb1AccountSchemaId = false →
      handler cfg env req store =
        (HResult.response 500 { error := some "invalid verifiedCb1AccountSchemaId" },
          store, [])) := by
  refine ⟨fun hk => ?_, fun hk h1 => ?_, fun hk h1 h2 => ?_⟩
  · simp [handler, hm, ha, hne, haddr, hk]
  · simp [handler, hm, ha, hne, haddr, hk, h1]
  · simp [handler, hm, ha, hne, haddr, hk, h1, h2]

theorem handler_config_errors_before_external_calls_witness :
    (cfg0.trustedSignerPKey ≠ "" ∧ isHexStr cfg0.verifiedAccountSchemaId = true ∧
      isHexStr "zz" = false) ∧
    handler { cfg0 with verifiedCb1AccountSchemaId := "zz" } envOk reqA storeA =
      (HResult.response 500 { error := some "invalid verifiedCb1AccountSchemaId" },
        storeA, []) :=
  ⟨⟨by decide, by decide, by decide⟩,
    (handler_config_errors_before_external_calls
      { cfg0 with verifiedCb1AccountSchemaId := "zz" } envOk reqA storeA addrA
      (by decide) (by decide) (by decide) (by decide)).2.2
      (by decide) (by decide) (by decide)⟩

/-! ### C5: ineligibility -/

/-- Every 200 response carries an `attestations` field (possibly empty). -/
lemma attestations_present_of_ok200 (cfg : Config) (env : Env) (req : Request)
    (store : Store) (b : Body) (st : Store) (effs : List Effect)
    (h : handler cfg env req store = (HResult.response 200 b, st, effs)) :
    b.attestations ≠ none := by
  unfold handler at h
  repeat' split at h
  all_goals simp_all
  all_goals (obtain ⟨hb, -, -⟩ := h; subst hb; simp)

/-- C5: when the attestation query returns no records, the handler answers
200 with an empty `attestations` list and no `signedMessage` or
`linkedAddresses` field, the only external call is the attestation query
(no identity resolution, no cache read or write), and the store is
untouched; moreover the `attestations` field is present in every 200
response of the handler. -/
theorem handler_ineligible_no_side_effects
    (cfg : Config) (env : Env) (req : Request) (store : Store) (a : String)
    (hv : ValidRun cfg req a) (hatt : env.attestations = Except.ok []) :
    handler cfg env req store =
      (HResult.response 200
        { error := none, attestations := some [], signedMessage := none,
          linkedAddresses := none }, store, [Effect.attQuery a (schemasOf cfg)]) ∧
    (∀ (cfg2 : Config) (env2 : Env) (req2 : Request) (store2 : Store)
        (b : Body) (st : Store) (effs : List Effect),
      handler cfg2 env2 req2 store2 = (HResult.response 200 b, st, effs) →
      b.attestations ≠ none) := by
  obtain ⟨hm, ha, hne, haddr, hkey, hs1, hs2⟩ := hv
  refine ⟨?_, fun cfg2 env2 req2 store2 b st effs h =>
    attestations_present_of_ok200 cfg2 env2 req2 store2 b st effs h⟩
  simp [handler, hm, ha, hne, haddr, hkey, hs1, hs2, hatt]

theorem handler_ineligible_no_side_effects_witness :
    (ValidRun cfg0 reqA addrA ∧
      ({ envOk with attestations := Except.ok [] } : Env).attestations =
        Except.ok []) ∧
    handler cfg0 { envOk with attestations := Except.ok [] } reqA storeA =
      (HResult.response 200
        { error := none, attestations := some [], signedMessage := none,
          linkedAddresses := none }, storeA,
        [Effect.attQuery addrA (schemasOf cfg0)]) :=
  ⟨⟨by refine ⟨rfl, rfl, by decide, by decide, by decide, by decide, by decide⟩, rfl⟩,
    (handler_ineligible_no_side_effects cfg0 { envOk with attestations := Except.ok [] }
      reqA storeA addrA
      ⟨rfl, rfl, by decide, by decide, by decide, by decide, by decide⟩ rfl).1⟩

/-! ### C1: conflict detection never overwrites the cached record -/

/-- C1: when the cache holds a record for the request's idempotency key
whose `address` differs from the requesting address, the handler answers
409, the store is returned unchanged (the original record is still the
cached value for the key), and no `kv.set` call is made. -/
theorem handler_conflict_no_overwrite
    (cfg : Config) (env : Env) (req : Request) (store : Store) (a : String)
    (atts : List Attestation) (facts : List VerifiedAccount) (lr : LinkedResult)
    (entry : StoreEntry) (hv : ValidRun cfg req a)
    (hatt : env.attestations = Except.ok atts) (hnil : atts ≠ [])
    (hdec : decodeAll env.parseFact atts = Except.ok facts)
    (hlink : env.linked = Except.ok lr) (hkv : env.kvGetOk = true)
    (hget : storeGet store (kvKeyOf lr.idemKey) = some entry)
    (hneq : entry.claim.address ≠ a) :
    handler cfg env req store =
      (HResult.response 409 { error := some " " }, store,
        [Effect.attQuery a (schemasOf cfg), Effect.linkResolve a,
          Effect.kvGet (kvKeyOf lr.idemKey)]) ∧
    storeGet (handler cfg env req store).2.1 (kvKeyOf lr.idemKey) = some entry ∧
    ∀ (k : String) (c : PreviousClaim) (t : Nat),
      Effect.kvSet k c t ∉ (handler cfg env req store).2.2 := by
  obtain ⟨hm, ha, hne, haddr, hkey, hs1, hs2⟩ := hv
  have hmain : handler cfg env req store =
      (HResult.response 409 { error := some " " }, store,
        [Effect.attQuery a (schemasOf cfg), Effect.linkResolve a,
          Effect.kvGet (kvKeyOf lr.idemKey)]) := by
    simp [handler, hm, ha, hne, haddr, hkey, hs1, hs2, hatt, hnil, hdec, hlink, hkv,
      hget, hneq]
  refine ⟨hmain, ?_, ?_⟩
  · rw [hmain]; exact hget
  · intro k c t; rw [hmain]; simp

theorem handler_conflict_no_overwrite_witness :
    (storeGet storeB (kvKeyOf "group1") =
        some ⟨⟨addrB, "0xoldsignature"⟩, 300⟩ ∧ addrB ≠ addrA) ∧
    handler cfg0 envOk reqA storeB =
      (HResult.response 409 { error := some " " }, storeB,
        [Effect.attQuery addrA (schemasOf cfg0), Effect.linkResolve addrA,
          Effect.kvGet (kvKeyOf "group1")]) :=
  ⟨⟨by decide, by decide⟩,
    (handler_conflict_no_overwrite cfg0 envOk reqA storeB addrA [att1] [fact1]
      ⟨[addrA], "group1"⟩ ⟨⟨addrB, "0xoldsignature"⟩, 300⟩
      ⟨rfl, rfl, by decide, by decide, by decide, by decide, by decide⟩
      rfl (by decide) rfl rfl rfl (by decide) (by decide)).1⟩

/-! ### C10: replay leaves the store (record and TTL) untouched -/

/-- C10: on a cache hit whose stored address matches the requesting
address, the handler performs no store write: the store after the request
is the store before it, the cached entry (record and recorded TTL) for the
key is unchanged, and no `kv.set` call appears in the trace. -/
theorem handler_replay_frame
    (cfg : Config) (env : Env) (req : Request) (store : Store) (a : String)
    (atts : List Attestation) (facts : List VerifiedAccount) (lr : LinkedResult)
    (entry : StoreEntry) (hv : ValidRun cfg req a)
    (hatt : env.attestations = Except.ok atts) (hnil : atts ≠ [])
    (hdec : decodeAll env.parseFact atts = Except.ok facts)
    (hlink : env.linked = Except.ok lr) (hkv : env.kvGetOk = true)
    (hget : storeGet store (kvKeyOf lr.idemKey) = some entry)
    (heq : entry.claim.address = a) :
    (handler cfg env req store).2.1 = store ∧
    storeGet (handler cfg env req store).2.1 (kvKeyOf lr.idemKey) = some entry ∧
    ∀ (k : String) (c : PreviousClaim) (t : Nat),
      Effect.kvSet k c t ∉ (handler cfg env req store).2.2 := by
  obtain ⟨hm, ha, hne, haddr, hkey, hs1, hs2⟩ := hv
  have hmain : handler cfg env req store =
      (HResult.response 200
        { linkedAddresses := some lr.linkedAddresses,
          signedMessage := some entry.claim.signedMessage,
          attestations := some facts }, store,
        [Effect.attQuery a (schemasOf cfg), Effect.linkResolve a,
          Effect.kvGet (kvKeyOf lr.idemKey)]) := by
    simp [handler, hm, ha, hne, haddr, hkey, hs1, hs2, hatt, hnil, hdec, hlink, hkv,
      hget, heq]
  refine ⟨by rw [hmain], ?_, ?_⟩
  · rw [hmain]; exact hget
  · intro k c t; rw [hmain]; simp

theorem handler_replay_frame_witness :
    (storeGet storeA (kvKeyOf "group1") =
        some ⟨⟨addrA, "0xoldsignature"⟩, 300⟩ ∧ (addrA : String) = addrA) ∧
    (handler cfg0 envOk reqA storeA).2.1 = storeA :=
  ⟨⟨by decide, rfl⟩,
    (handler_replay_frame cfg0 envOk reqA storeA addrA [att1] [fact1]
      ⟨[addrA], "group1"⟩ ⟨⟨addrA, "0xoldsignature"⟩, 300⟩
      ⟨rfl, rfl, by decide, by decide, by decide, by decide, by decide⟩
      rfl (by decide) rfl rfl rfl (by decide) rfl).1⟩

/-! ### C9: the conflict check is exact string comparison -/

/-- Lower-casing of a string, character by character. -/
def toLowerStr (s : String) : String := ⟨s.data.map Char.toLower⟩

/-- C9: the conflict check compares the stored and requesting address
strings with string inequality, so a cached record whose address is the
same 20-byte address written in a different hex letter case (equal after
lower-casing, unequal as strings) is answered 409 instead of being
replayed. -/
theorem handler_conflict_is_case_sensitive
    (cfg : Config) (env : Env) (req : Request) (store : Store) (a : String)
    (atts : List Attestation) (facts : List VerifiedAccount) (lr : LinkedResult)
    (entry : StoreEntry) (hv : ValidRun cfg req a)
    (hatt : env.attestations = Except.ok atts) (hnil : atts ≠ [])
    (hdec : decodeAll env.parseFact atts = Except.ok facts)
    (hlink : env.linked = Except.ok lr) (hkv : env.kvGetOk = true)
    (hget : storeGet store (kvKeyOf lr.idemKey) = some entry)
    (_hcase : toLowerStr entry.claim.address = toLowerStr a)
    (hneq : entry.claim.address ≠ a) :
    (handler cfg env req store).1 = HResult.response 409 { error := some " " } := by
  obtain ⟨hm, ha, hne, haddr, hkey, hs1, hs2⟩ := hv
  simp [handler, hm, ha, hne, haddr, hkey, hs1, hs2, hatt, hnil, hdec, hlink, hkv,
    hget, hneq]

theorem handler_conflict_is_case_sensitive_witness :
    (toLowerStr "0xAAAAAAAAAAAAAAAAAAAAAAAAAAAAAAAAAAAAAAAA" =
        toLowerStr "0xaaaaaaaaaaaaaaaaaaaaaaaaaaaaaaaaaaaaaaaa" ∧
      ("0xAAAAAAAAAAAAAAAAAAAAAAAAAAAAAAAAAAAAAAAA" : String) ≠
        "0xaaaaaaaaaaaaaaaaaaaaaaaaaaaaaaaaaaaaaaaa") ∧
    (handler cfg0 envOk
        ⟨"GET", QueryVal.one "0xaaaaaaaaaaaaaaaaaaaaaaaaaaaaaaaaaaaaaaaa"⟩
        [(kvKeyOf "group1",
          ⟨⟨"0xAAAAAAAAAAAAAAAAAAAAAAAAAAAAAAAAAAAAAAAA", "0xoldsignature"⟩, 300⟩)]).1 =
      HResult.response 409 { error := some " " } :=
  ⟨⟨by decide, by decide⟩,
    handler_conflict_is_case_sensitive cfg0 envOk
      ⟨"GET", QueryVal.one "0xaaaaaaaaaaaaaaaaaaaaaaaaaaaaaaaaaaaaaaaa"⟩
      [(kvKeyOf "group1",
        ⟨⟨"0xAAAAAAAAAAAAAAAAAAAAAAAAAAAAAAAAAAAAAAAA", "0xoldsignature"⟩, 300⟩)]
      "0xaaaaaaaaaaaaaaaaaaaaaaaaaaaaaaaaaaaaaaaa" [att1] [fact1]
      ⟨[addrA], "group1"⟩
      ⟨⟨"0xAAAAAAAAAAAAAAAAAAAAAAAAAAAAAAAAAAAAAAAA", "0xoldsignature"⟩, 300⟩
      ⟨rfl, rfl, by decide, by decide, by decide, by decide, by decide⟩
      rfl (by decide) rfl rfl rfl (by decide) (by decide) (by decide)⟩

/-! ### C2: idempotent replay -/

/-- C2: on a cache hit whose stored address equals the requesting address
the handler answers 200 with the previously stored `signedMessage`
unchanged and never calls the signer; consequently, starting from a key
with no cached record, two sequential calls from the same eligible address
return the identical `signedMessage`, the second being a replay. -/
theorem handler_idempotent_replay
    (cfg : Config) (env : Env) (req : Request) (store : Store) (a : String)
    (atts : List Attestation) (facts : List VerifiedAccount) (lr : LinkedResult)
    (hv : ValidRun cfg req a)
    (hatt : env.attestations = Except.ok atts) (hnil : atts ≠ [])
    (hdec : decodeAll env.parseFact atts = Except.ok facts)
    (hlink : env.linked = Except.ok lr) (hkv : env.kvGetOk = true) :
    (∀ entry : StoreEntry, storeGet store (kvKeyOf lr.idemKey) = some entry →
      entry.claim.address = a →
      (handler cfg env req store).1 =
        HResult.response 200
          { linkedAddresses := some lr.linkedAddresses,
            signedMessage := some entry.claim.signedMessage,
            attestations := some facts } ∧
      ∀ b : String, Effect.signCall b ∉ (handler cfg env req store).2.2) ∧
    (∀ sm : String, storeGet store (kvKeyOf lr.idemKey) = none →
      env.sign a = Except.ok sm → env.kvSetOk = true →
      (handler cfg env req store).1 =
        HResult.response 200
          { linkedAddresses := some lr.linkedAddresses,
            signedMessage := some sm, attestations := some facts } ∧
      (handler cfg env req (handler cfg env req store).2.1).1 =
        HResult.response 200
          { linkedAddresses := some lr.linkedAddresses,
            signedMessage := some sm, attestations := some facts } ∧
      ∀ b : String,
        Effect.signCall b ∉ (handler cfg env req (handler cfg env req store).2.1).2.2) := by
  obtain ⟨hm, ha, hne, haddr, hkey, hs1, hs2⟩ := hv
  constructor
  · intro entry hget heq
    have hmain : handler cfg env req store =
        (HResult.response 200
          { linkedAddresses := some lr.linkedAddresses,
            signedMessage := some entry.claim.signedMessage,
            attestations := some facts }, store,
          [Effect.attQuery a (schemasOf cfg), Effect.linkResolve a,
            Effect.kvGet (kvKeyOf lr.idemKey)]) := by
      simp [handler, hm, ha, hne, haddr, hkey, hs1, hs2, hatt, hnil, hdec, hlink,
        hkv, hget, heq]
    exact ⟨by rw [hmain], fun b => by rw [hmain]; simp⟩
  · intro sm hmiss hsign hset
    have hfirst : handler cfg env req store =
        (HResult.response 200
          { linkedAddresses := some lr.linkedAddresses,
            signedMessage := some sm, attestations := some facts },
          storeSet store (kvKeyOf lr.idemKey) ⟨a, sm⟩ cfg.expiry,
          [Effect.attQuery a (schemasOf cfg), Effect.linkResolve a,
            Effect.kvGet (kvKeyOf lr.idemKey), Effect.signCall a,
            Effect.kvSet (kvKeyOf lr.idemKey) ⟨a, sm⟩ cfg.expiry]) := by
      simp [handler, hm, ha, hne, haddr, hkey, hs1, hs2, hatt, hnil, hdec, hlink,
        hkv, hmiss, hsign, hset]
    have hget2 : storeGet (storeSet store (kvKeyOf lr.idemKey) ⟨a, sm⟩ cfg.expiry)
        (kvKeyOf lr.idemKey) = some ⟨⟨a, sm⟩, cfg.expiry⟩ := by
      simp [storeSet, storeGet]
    have hsecond : handler cfg env req
        (storeSet store (kvKeyOf lr.idemKey) ⟨a, sm⟩ cfg.expiry) =
        (HResult.response 200
          { linkedAddresses := some lr.linkedAddresses,
            signedMessage := some sm, attestations := some facts },
          storeSet store (kvKeyOf lr.idemKey) ⟨a, sm⟩ cfg.expiry,
          [Effect.attQuery a (schemasOf cfg), Effect.linkResolve a,
            Effect.kvGet (kvKeyOf lr.idemKey)]) := by
      simp [handler, hm, ha, hne, haddr, hkey, hs1, hs2, hatt, hnil, hdec, hlink,
        hkv, hget2]
    refine ⟨by rw [hfirst], ?_, ?_⟩
    · rw [hfirst]
      simpa using by rw [hsecond]
    · intro b
      rw [hfirst]
      simpa using by rw [hsecond]; simp

theorem handler_idempotent_replay_witness :
    (storeGet ([] : Store) (kvKeyOf "group1") = none ∧
      envOk.sign addrA = Except.ok "0xsignedmessage" ∧ envOk.kvSetOk = true) ∧
    (handler cfg0 envOk reqA []).1 =
      HResult.response 200
        { linkedAddresses := some [addrA], signedMessage := some "0xsignedmessage",
          attestations := some [fact1] } ∧
    (handler cfg0 envOk reqA (handler cfg0 envOk reqA []).2.1).1 =
      HResult.response 200
        { linkedAddresses := some [addrA], signedMessage := some "0xsignedmessage",
          attestations := some [fact1] } :=
  ⟨⟨rfl, rfl, rfl⟩,
    ((handler_idempotent_replay cfg0 envOk reqA [] addrA [att1] [fact1]
        ⟨[addrA], "group1"⟩
        ⟨rfl, rfl, by decide, by decide, by decide, by decide, by decide⟩
        rfl (by decide) rfl rfl rfl).2 "0xsignedmessage" rfl rfl rfl).1,
    ((handler_idempotent_replay cfg0 envOk reqA [] addrA [att1] [fact1]
        ⟨[addrA], "group1"⟩
        ⟨rfl, rfl, by decide, by decide, by decide, by decide, by decide⟩
        rfl (by decide) rfl rfl rfl).2 "0xsignedmessage" rfl rfl rfl).2.1⟩

/-! ### C4: commit atomicity and TTL -/

/-- C4: on the cache-miss path, if signing fails no cache entry is written
(the key's state is unchanged and no `kv.set` call is made); when signing
succeeds and the write happens, the store gains exactly the new claim for
the key with TTL equal to the configured expiry window, and every `kv.set`
in the trace carries that TTL. -/
theorem handler_commit_after_sign_with_ttl
    (cfg : Config) (env : Env) (req : Request) (store : Store) (a : String)
    (atts : List Attestation) (facts : List VerifiedAccount) (lr : LinkedResult)
    (hv : ValidRun cfg req a)
    (hatt : env.attestations = Except.ok atts) (hnil : atts ≠ [])
    (hdec : decodeAll env.parseFact atts = Except.ok facts)
    (hlink : env.linked = Except.ok lr) (hkv : env.kvGetOk = true)
    (hmiss : storeGet store (kvKeyOf lr.idemKey) = none) :
    (env.sign a = Except.error () →
      (handler cfg env req store).2.1 = store ∧
      (handler cfg env req store).1 = HResult.response 500 genericError ∧
      ∀ (k : String) (c : PreviousClaim) (t : Nat),
        Effect.kvSet k c t ∉ (handler cfg env req store).2.2) ∧
    (∀ sm : String, env.sign a = Except.ok sm → env.kvSetOk = true →
      (handler cfg env req store).2.1 =
        storeSet store (kvKeyOf lr.idemKey) ⟨a, sm⟩ cfg.expiry ∧
      storeGet (handler cfg env req store).2.1 (kvKeyOf lr.idemKey) =
        some ⟨⟨a, sm⟩, cfg.expiry⟩ ∧
      ∀ (k : String) (c : PreviousClaim) (t : Nat),
        Effect.kvSet k c t ∈ (handler cfg env req store).2.2 → t = cfg.expiry) := by
  obtain ⟨hm, ha, hne, haddr, hkey, hs1, hs2⟩ := hv
  constructor
  · intro hsign
    have hmain : handler cfg env req store =
        (HResult.response 500 genericError, store,
          [Effect.attQuery a (schemasOf cfg), Effect.linkResolve a,
            Effect.kvGet (kvKeyOf lr.idemKey), Effect.signCall a]) := by
      simp [handler, hm, ha, hne, haddr, hkey, hs1, hs2, hatt, hnil, hdec, hlink,
        hkv, hmiss, hsign]
    exact ⟨by rw [hmain], by rw [hmain], fun k c t => by rw [hmain]; simp⟩
  · intro sm hsign hset
    have hmain : handler cfg env req store =
        (HResult.response 200
          { linkedAddresses := some lr.linkedAddresses,
            signedMessage := some sm, attestations := some facts },
          storeSet store (kvKeyOf lr.idemKey) ⟨a, sm⟩ cfg.expiry,
          [Effect.attQuery a (schemasOf cfg), Effect.linkResolve a,
            Effect.kvGet (kvKeyOf lr.idemKey), Effect.signCall a,
            Effect.kvSet (kvKeyOf lr.idemKey) ⟨a, sm⟩ cfg.expiry]) := by
      simp [handler, hm, ha, hne, haddr, hkey, hs1, hs2, hatt, hnil, hdec, hlink,
        hkv, hmiss, hsign, hset]
    refine ⟨by rw [hmain], ?_, ?_⟩
    · rw [hmain]; simp [storeSet, storeGet]
    · intro k c t ht
      rw [hmain] at ht
      simp at ht
      rcases ht with ⟨-, -, rfl⟩
      rfl

theorem handler_commit_after_sign_with_ttl_witness :
    (storeGet ([] : Store) (kvKeyOf "group1") = none ∧
      ({ envOk with sign := fun _ => Except.error () } : Env).sign addrA =
        Except.error ()) ∧
    (handler cfg0 { envOk with sign := fun _ => Except.error () } reqA []).2.1 =
      ([] : Store) ∧
    (handler cfg0 { envOk with sign := fun _ => Except.error () } reqA []).1 =
      HResult.response 500 genericError :=
  ⟨⟨rfl, rfl⟩,
    ((handler_commit_after_sign_with_ttl cfg0
        { envOk with sign := fun _ => Except.error () } reqA [] addrA [att1] [fact1]
        ⟨[addrA], "group1"⟩
        ⟨rfl, rfl, by decide, by decide, by decide, by decide, by decide⟩
        rfl (by decide) rfl rfl rfl rfl).1 rfl).1,
    ((handler_commit_after_sign_with_ttl cfg0
        { envOk with sign := fun _ => Except.error () } reqA [] addrA [att1] [fact1]
        ⟨[addrA], "group1"⟩
        ⟨rfl, rfl, by decide, by decide, by decide, by decide, by decide⟩
        rfl (by decide) rfl rfl rfl rfl).1 rfl).2.1⟩

/-! ### C3: the error boundary starts only after attestation decode -/

/-- An environment whose attestation payload is malformed: `JSON.parse`
throws on it. -/
def envBadDecode : Env := { envOk with parseFact := fun _ => Except.error () }

/-- C3 counterexample: a malformed attestation payload makes the handler
end in an uncaught exception, not in a 500 response — the attestation
fetch and the payload decode happen before the `try` block, so their
failures are not caught at the orchestrator boundary. -/
theorem handler_decode_failure_uncaught_cex :
    (handler cfg0 envBadDecode reqA []).1 = HResult.uncaught ∧
    (handler cfg0 envBadDecode reqA []).1 ≠ HResult.response 500 genericError := by
  decide

/-- C3 amended: failures of the collaborator calls made inside the `try`
block — identity-linking resolution, key/value store reads and writes, and
signing — are each caught and converted to exactly one 500 response with
the generic message; failures of the attestation fetch or of the
attestation payload decode occur before the `try` block and escape the
handler as uncaught exceptions. -/
theorem handler_error_boundary
    (cfg : Config) (env : Env) (req : Request) (store : Store) (a : String)
    (hv : ValidRun cfg req a) :
    (env.attestations = Except.error () →
      (handler cfg env req store).1 = HResult.uncaught) ∧
    (∀ atts : List Attestation, env.attestations = Except.ok atts → atts ≠ [] →
      decodeAll env.parseFact atts = Except.error () →
      (handler cfg env req store).1 = HResult.uncaught) ∧
    (∀ (atts : List Attestation) (facts : List VerifiedAccount),
      env.attestations = Except.ok atts → atts ≠ [] →
      decodeAll env.parseFact atts = Except.ok facts →
      (env.linked = Except.error () →
        (handler cfg env req store).1 = HResult.response 500 genericError) ∧
      (∀ lr : LinkedResult, env.linked = Except.ok lr → env.kvGetOk = false →
        (handler cfg env req store).1 = HResult.response 500 genericError) ∧
      (∀ lr : LinkedResult, env.linked = Except.ok lr → env.kvGetOk = true →
        storeGet store (kvKeyOf lr.idemKey) = none → env.sign a = Except.error () →
        (handler cfg env req store).1 = HResult.response 500 genericError) ∧
      (∀ (lr : LinkedResult) (sm : String), env.linked = Except.ok lr →
        env.kvGetOk = true → storeGet store (kvKeyOf lr.idemKey) = none →
        env.sign a = Except.ok sm → env.kvSetOk = false →
        (handler cfg env req store).1 = HResult.response 500 genericError)) := by
  obtain ⟨hm, ha, hne, haddr, hkey, hs1, hs2⟩ := hv
  refine ⟨fun hatt => ?_, fun atts hatt hnil hdec => ?_,
    fun atts facts hatt hnil hdec =>
      ⟨fun hlink => ?_, fun lr hlink hkv => ?_,
        fun lr hlink hkv hmiss hsign => ?_,
        fun lr sm hlink hkv hmiss hsign hset => ?_⟩⟩
  · simp [handler, hm, ha, hne, haddr, hkey, hs1, hs2, hatt]
  · simp [handler, hm, ha, hne, haddr, hkey, hs1, hs2, hatt, hnil, hdec]
  · simp [handler, hm, ha, hne, haddr, hkey, hs1, hs2, hatt, hnil, hdec, hlink]
  · simp [handler, hm, ha, hne, haddr, hkey, hs1, hs2, hatt, hnil, hdec, hlink, hkv]
  · simp [handler, hm, ha, hne, haddr, hkey, hs1, hs2, hatt, hnil, hdec, hlink, hkv,
      hmiss, hsign]
  · simp [handler, hm, ha, hne, haddr, hkey, hs1, hs2, hatt, hnil, hdec, hlink, hkv,
      hmiss, hsign, hset]

theorem handler_error_boundary_witness :
    ValidRun cfg0 reqA addrA ∧
    (handler cfg0 { envOk with linked := Except.error () } reqA []).1 =
      HResult.response 500 genericError :=
  ⟨⟨rfl, rfl, by decide, by decide, by decide, by decide, by decide⟩,
    ((handler_error_boundary cfg0 { envOk with linked := Except.error () } reqA []
        addrA ⟨rfl, rfl, by decide, by decide, by decide, by decide, by decide⟩).2.2
      [att1] [fact1] rfl (by decide) rfl).1 rfl⟩

/-! ### C6: the message encoder -/

/-- Big-endian fixed-width byte encoding, as `encodePacked` lays out a
`uint256` (width 32). -/
def toBytesBE : Nat → Nat → List Nat
  | 0, _ => []
  | w + 1, v => toBytesBE w (v / 256) ++ [v % 256]

/-- Value of a big-endian byte string. -/
def fromBytesBE (bs : List Nat) : Nat := bs.foldl (fun acc b => acc * 256 + b) 0

/-- The packed pre-image built by `signMessage` before hashing:
`encodePacked(['bytes2', 'address', 'address', 'uint256'],
['0x1900', trustedSignerAddress, claimerAddress, BigInt(expiry)])` — the
2-byte domain prefix `0x1900`, the signer's 20 address bytes, the
claimer's 20 address bytes, then the expiry as a 32-byte big-endian word.
`keccak256` is then applied to exactly this byte sequence. -/
def encodeMessage (signer claimer : List Nat) (expiry : Nat) : List Nat :=
  [0x19, 0x00] ++ signer ++ claimer ++ toBytesBE 32 expiry

lemma toBytesBE_length (w v : Nat) : (toBytesBE w v).length = w := by
  induction w generalizing v with
  | zero => rfl
  | succ w ih => simp [toBytesBE, ih]

lemma fromBytesBE_append_singleton (xs : List Nat) (b : Nat) :
    fromBytesBE (xs ++ [b]) = fromBytesBE xs * 256 + b := by
  simp [fromBytesBE, List.foldl_append]

lemma fromBytesBE_toBytesBE (w v : Nat) (h : v < 256 ^ w) :
    fromBytesBE (toBytesBE w v) = v := by
  induction w generalizing v with
  | zero =>
    have hv : v = 0 := Nat.lt_one_iff.mp (by simpa using h)
    subst hv; rfl
  | succ w ih =>
    have hlt : v / 256 < 256 ^ w := by
      apply Nat.div_lt_of_lt_mul
      rw [pow_succ, mul_comm] at h
      exact h
    rw [toBytesBE, fromBytesBE_append_singleton, ih _ hlt, mul_comm]
    exact Nat.div_add_mod v 256

/-- C6: the packed pre-image is a deterministic pure function of
(signer address, claimer address, expiry): two input tuples of the right
shapes (20-byte addresses, expiry below 2^256) produce the same pre-image
exactly when they are equal — identical tuples give an identical
pre-image, and tuples differing in any one field give different
pre-images. -/
theorem encodeMessage_deterministic_injective
    (s1 c1 s2 c2 : List Nat) (e1 e2 : Nat)
    (hs1 : s1.length = 20) (hc1 : c1.length = 20)
    (hs2 : s2.length = 20) (hc2 : c2.length = 20)
    (he1 : e1 < 256 ^ 32) (he2 : e2 < 256 ^ 32) :
    encodeMessage s1 c1 e1 = encodeMessage s2 c2 e2 ↔
      (s1 = s2 ∧ c1 = c2 ∧ e1 = e2) := by
  constructor
  · intro h
    unfold encodeMessage at h
    obtain ⟨h2, ht⟩ := List.append_inj h (by simp [hs1, hc1, hs2, hc2])
    obtain ⟨h4, hc⟩ := List.append_inj h2 (by simp [hs1, hs2])
    have hs : s1 = s2 := by simpa using h4
    have he : e1 = e2 := by
      have hfrom := congrArg fromBytesBE ht
      rwa [fromBytesBE_toBytesBE 32 e1 he1, fromBytesBE_toBytesBE 32 e2 he2] at hfrom
    exact ⟨hs, hc, he⟩
  · rintro ⟨rfl, rfl, rfl⟩
    rfl

theorem encodeMessage_deterministic_injective_witness :
    ((List.replicate 20 9).length = 20 ∧ (List.replicate 20 1).length = 20 ∧
      (List.replicate 20 2).length = 20 ∧ (5 : Nat) < 256 ^ 32) ∧
    (encodeMessage (List.replicate 20 9) (List.replicate 20 1) 5 =
        encodeMessage (List.replicate 20 9) (List.replicate 20 2) 5 ↔
      (List.replicate 20 9 = List.replicate 20 9 ∧
        List.replicate 20 1 = List.replicate 20 2 ∧ (5 : Nat) = 5)) :=
  ⟨⟨by decide, by decide, by decide, by decide⟩,
    encodeMessage_deterministic_injective
      (List.replicate 20 9) (List.replicate 20 1) (List.replicate 20 9)
      (List.replicate 20 2) 5 5
      (by decide) (by decide) (by decide) (by decide) (by decide) (by decide)⟩

end UsernameClaim
